import Mathlib

/-!
Shallow embedding of `scripts/generate-favicons.py`.

The script shells out to the external ImageMagick `convert` binary.  We model
the external world by an `Env`: the outcome of the capability probe
(`convert --version`), and a `tool` oracle giving, for each argument list of a
`convert` invocation, the tool's exit code together with the bytes it writes to
its output path when it exits 0.  Modelling `tool` as a function makes the
external tool a deterministic function of its argument list (the determinism
hypothesis of the idempotence property).

The filesystem is an association list from paths to byte contents; writing
prepends, and `findFile` returns the most recent binding.  A run records the
final filesystem, the process exit code, the ordered trace of every
`subprocess.run` invocation, and the printed lines (the `{e}` of the failure
messages, which interpolates the Python exception object, is elided; the
messages relevant to the claims are kept verbatim).
-/

namespace Favicon

/-- A filesystem: association list from path to file bytes, most recent first. -/
abbrev FS := List (String × List Nat)

/-- Look up the contents of a path: the most recently written binding wins.
Models both `os.path.exists` (via `isSome`) and reading a file. -/
def findFile : FS → String → Option (List Nat)
  | [], _ => none
  | (q, b) :: rest, p => if q = p then some b else findFile rest p

/-- Outcome of `subprocess.run(['convert', '--version'], ..., check=True)`:
it either succeeds, raises `CalledProcessError` (nonzero exit), or raises
`FileNotFoundError` (executable absent). -/
inductive ProbeResult
  | ok
  | calledProcessError
  | fileNotFound
deriving DecidableEq, Repr

/-- The external world: the probe outcome and, for each `convert` argument
list, the tool's exit code and the bytes it writes on success. -/
structure Env where
  probe : ProbeResult
  tool : List String → Nat × List Nat

/-- `svg_file = 'public/favicon.svg'` from `generate_png_favicons`. -/
def svg_file : String := "public/favicon.svg"

/-- `sizes = [48, 96, 192]` from `generate_png_favicons`. -/
def sizes : List Nat := [48, 96, 192]

/-- The four dimensions converted, in the order the script processes them:
the `sizes` loop followed by the separate legacy 32 block. -/
def sizes4 : List Nat := [48, 96, 192, 32]

/-- `output_file = f'public/favicon-{size}x{size}.png'`. -/
def output_file (size : Nat) : String :=
  "public/favicon-" ++ toString size ++ "x" ++ toString size ++ ".png"

/-- The capability probe command `['convert', '--version']`. -/
def probeCmd : List String := ["convert", "--version"]

/-- The per-size conversion command list built in `generate_png_favicons`. -/
def convCmd (size : Nat) : List String :=
  ["convert", "-background", "none", "-density", "300",
   "-resize", toString size ++ "x" ++ toString size,
   svg_file, output_file size]

/-- `ico_cmd` from `generate_png_favicons`. -/
def ico_cmd : List String :=
  ["convert", "public/favicon-32x32.png", "public/favicon-48x48.png",
   "public/favicon.ico"]

/-- The path of the ICO output. -/
def icoFile : String := "public/favicon.ico"

/-- The five output paths the pipeline writes, in the order written. -/
def outputPaths : List String :=
  [output_file 48, output_file 96, output_file 192, output_file 32, icoFile]

/-- Mutable script state: the filesystem, the trace of external invocations
so far, and the lines printed so far. -/
structure St where
  fs : FS
  invoked : List (List String)
  printed : List String
deriving DecidableEq, Repr

/-- Result of a whole process run. `exitCode` is the process exit status. -/
structure RunResult where
  fs : FS
  exitCode : Nat
  invoked : List (List String)
  printed : List String
deriving DecidableEq, Repr

/-- `check_dependencies`: probe `convert --version`; on `CalledProcessError`
or `FileNotFoundError` print the two error lines and `sys.exit(1)`
(modelled as `Except.error`). -/
def check_dependencies (env : Env) (st : St) : Except St St :=
  let st1 : St := { st with invoked := st.invoked ++ [probeCmd] }
  match env.probe with
  | .ok => .ok st1
  | _ => .error { st1 with printed := st1.printed ++
      ["Error: ImageMagick is not installed.",
       "Install it with: brew install imagemagick"] }

/-- One `subprocess.run(cmd, check=True)` conversion for one size: record the
invocation; on exit 0 write the output file and print the success line; on a
nonzero exit print the failure line and `sys.exit(1)`. -/
def convStep (env : Env) (size : Nat) (st : St) : Except St St :=
  let cmd := convCmd size
  let st1 : St := { st with invoked := st.invoked ++ [cmd] }
  let r := env.tool cmd
  if r.1 = 0 then
    .ok { st1 with fs := (output_file size, r.2) :: st1.fs,
                   printed := st1.printed ++
                     ["✓ Generated " ++ output_file size] }
  else
    .error { st1 with printed := st1.printed ++
      ["✗ Failed to generate " ++ output_file size] }

/-- The `for size in sizes:` loop: sequential conversions, stopping at the
first failure. -/
def convertAll (env : Env) : List Nat → St → Except St St
  | [], st => .ok st
  | s :: rest, st =>
    match convStep env s st with
    | .ok st1 => convertAll env rest st1
    | .error st1 => .error st1

/-- The `favicon.ico` bundling block: print the banner, run `ico_cmd`; on
exit 0 write the ICO file, else print the failure line and `sys.exit(1)`.
Note the source performs no existence check on the two input PNGs. -/
def icoStep (env : Env) (st : St) : Except St St :=
  let st1 : St := { st with
    printed := st.printed ++ ["", "Generating favicon.ico with multiple sizes..."],
    invoked := st.invoked ++ [ico_cmd] }
  let r := env.tool ico_cmd
  if r.1 = 0 then
    .ok { st1 with fs := (icoFile, r.2) :: st1.fs,
                   printed := st1.printed ++ ["✓ Generated public/favicon.ico"] }
  else
    .error { st1 with printed := st1.printed ++
      ["✗ Failed to generate favicon.ico"] }

/-- `generate_png_favicons`: check the source SVG exists, convert the three
`sizes`, then the legacy 32, then bundle the ICO. -/
def generate_png_favicons (env : Env) (st : St) : Except St St :=
  if (findFile st.fs svg_file).isSome then
    match convertAll env sizes st with
    | .error st1 => .error st1
    | .ok st1 =>
      match convStep env 32 st1 with
      | .error st2 => .error st2
      | .ok st2 => icoStep env st2
  else
    .error { st with printed := st.printed ++
      ["Error: " ++ svg_file ++ " not found"] }

/-- The final success banner and follow-up advice printed by `__main__`. -/
def successLines : List String :=
  ["", "✅ All favicons generated successfully!",
   "", "Next steps:",
   "1. Update layout.tsx to reference the new PNG files",
   "2. Deploy your changes",
   "3. Request re-indexing in Google Search Console",
   "4. Wait 1-3 weeks for Google to update"]

/-- The `__main__` block: `check_dependencies()` then
`generate_png_favicons()`; any `sys.exit(1)` gives exit code 1, otherwise
the success banner is printed and the process exits 0. -/
def run (env : Env) (fs0 : FS) : RunResult :=
  let st0 : St := { fs := fs0, invoked := [], printed := [] }
  match check_dependencies env st0 with
  | .error st1 => { fs := st1.fs, exitCode := 1, invoked := st1.invoked,
                    printed := st1.printed }
  | .ok st1 =>
    match generate_png_favicons env st1 with
    | .error st2 => { fs := st2.fs, exitCode := 1, invoked := st2.invoked,
                      printed := st2.printed }
    | .ok st2 => { fs := st2.fs, exitCode := 0, invoked := st2.invoked,
                   printed := st2.printed ++ successLines }

/-- The full sequence of external invocations of a maximal run. -/
def allCmds : List (List String) :=
  [probeCmd, convCmd 48, convCmd 96, convCmd 192, convCmd 32, ico_cmd]

/-- The five `convert` commands of a maximal run, probe excluded. -/
def convCmds : List (List String) :=
  [convCmd 48, convCmd 96, convCmd 192, convCmd 32, ico_cmd]

/-- A tool oracle that succeeds on every invocation, writing one byte. -/
def okTool : List String → Nat × List Nat := fun _ => (0, [1])

/-- Concrete environment: probe succeeds, every invocation succeeds. -/
def envAllOk : Env := { probe := ProbeResult.ok, tool := okTool }

/-- Concrete environment: the probe raises `CalledProcessError`. -/
def envProbeCPE : Env := { probe := ProbeResult.calledProcessError, tool := okTool }

/-- Concrete environment: the probe raises `FileNotFoundError`. -/
def envProbeFNF : Env := { probe := ProbeResult.fileNotFound, tool := okTool }

/-- Concrete environment: the tool fails exactly on the 96x96 conversion. -/
def envFail96 : Env :=
  { probe := ProbeResult.ok,
    tool := fun c => if c = convCmd 96 then (1, []) else (0, [1]) }

/-- A starting filesystem holding only the source SVG. -/
def fsSvg : FS := [(svg_file, [0])]

/-! ### Run-shape lemmas: the exact result of `run` at each possible stopping
point, used by all the claim theorems below. -/

/-- If the probe fails (either way), the run stops after the probe. -/
theorem run_probe_fail (env : Env) (fs0 : FS) (hp : env.probe ≠ ProbeResult.ok) :
    run env fs0 =
      { fs := fs0,
        exitCode := 1,
        invoked := [probeCmd],
        printed := ["Error: ImageMagick is not installed.",
                    "Install it with: brew install imagemagick"] } := by
  cases h : env.probe with
  | ok => exact absurd h hp
  | calledProcessError => simp [run, check_dependencies, h]
  | fileNotFound => simp [run, check_dependencies, h]

/-- If the probe succeeds but the SVG is absent, the run stops before any
conversion. -/
theorem run_svg_missing (env : Env) (fs0 : FS) (hp : env.probe = ProbeResult.ok)
    (hs : findFile fs0 svg_file = none) :
    run env fs0 =
      { fs := fs0,
        exitCode := 1,
        invoked := [probeCmd],
        printed := ["Error: " ++ svg_file ++ " not found"] } := by
  simp [run, check_dependencies, hp, generate_png_favicons, hs]

/-- Failure at the first (48) conversion. -/
theorem run_fail_48 (env : Env) (fs0 : FS) (hp : env.probe = ProbeResult.ok)
    (hs : (findFile fs0 svg_file).isSome = true)
    (h48 : (env.tool (convCmd 48)).1 ≠ 0) :
    run env fs0 =
      { fs := fs0,
        exitCode := 1,
        invoked := [probeCmd, convCmd 48],
        printed := ["✗ Failed to generate " ++ output_file 48] } := by
  simp [run, check_dependencies, hp, generate_png_favicons, hs, sizes,
        convertAll, convStep, h48]

/-- Failure at the second (96) conversion. -/
theorem run_fail_96 (env : Env) (fs0 : FS) (hp : env.probe = ProbeResult.ok)
    (hs : (findFile fs0 svg_file).isSome = true)
    (h48 : (env.tool (convCmd 48)).1 = 0)
    (h96 : (env.tool (convCmd 96)).1 ≠ 0) :
    run env fs0 =
      { fs := (output_file 48, (env.tool (convCmd 48)).2) :: fs0,
        exitCode := 1,
        invoked := [probeCmd, convCmd 48, convCmd 96],
        printed := ["✓ Generated " ++ output_file 48,
                    "✗ Failed to generate " ++ output_file 96] } := by
  simp [run, check_dependencies, hp, generate_png_favicons, hs, sizes,
        convertAll, convStep, h48, h96]

/-- Failure at the third (192) conversion. -/
theorem run_fail_192 (env : Env) (fs0 : FS) (hp : env.probe = ProbeResult.ok)
    (hs : (findFile fs0 svg_file).isSome = true)
    (h48 : (env.tool (convCmd 48)).1 = 0)
    (h96 : (env.tool (convCmd 96)).1 = 0)
    (h192 : (env.tool (convCmd 192)).1 ≠ 0) :
    run env fs0 =
      { fs := (output_file 96, (env.tool (convCmd 96)).2) ::
              (output_file 48, (env.tool (convCmd 48)).2) :: fs0,
        exitCode := 1,
        invoked := [probeCmd, convCmd 48, convCmd 96, convCmd 192],
        printed := ["✓ Generated " ++ output_file 48,
                    "✓ Generated " ++ output_file 96,
                    "✗ Failed to generate " ++ output_file 192] } := by
  simp [run, check_dependencies, hp, generate_png_favicons, hs, sizes,
        convertAll, convStep, h48, h96, h192]

/-- Failure at the legacy (32) conversion. -/
theorem run_fail_32 (env : Env) (fs0 : FS) (hp : env.probe = ProbeResult.ok)
    (hs : (findFile fs0 svg_file).isSome = true)
    (h48 : (env.tool (convCmd 48)).1 = 0)
    (h96 : (env.tool (convCmd 96)).1 = 0)
    (h192 : (env.tool (convCmd 192)).1 = 0)
    (h32 : (env.tool (convCmd 32)).1 ≠ 0) :
    run env fs0 =
      { fs := (output_file 192, (env.tool (convCmd 192)).2) ::
              (output_file 96, (env.tool (convCmd 96)).2) ::
              (output_file 48, (env.tool (convCmd 48)).2) :: fs0,
        exitCode := 1,
        invoked := [probeCmd, convCmd 48, convCmd 96, convCmd 192, convCmd 32],
        printed := ["✓ Generated " ++ output_file 48,
                    "✓ Generated " ++ output_file 96,
                    "✓ Generated " ++ output_file 192,
                    "✗ Failed to generate " ++ output_file 32] } := by
  simp [run, check_dependencies, hp, generate_png_favicons, hs, sizes,
        convertAll, convStep, h48, h96, h192, h32]

/-- Failure at the ICO bundling step. -/
theorem run_fail_ico (env : Env) (fs0 : FS) (hp : env.probe = ProbeResult.ok)
    (hs : (findFile fs0 svg_file).isSome = true)
    (h48 : (env.tool (convCmd 48)).1 = 0)
    (h96 : (env.tool (convCmd 96)).1 = 0)
    (h192 : (env.tool (convCmd 192)).1 = 0)
    (h32 : (env.tool (convCmd 32)).1 = 0)
    (hico : (env.tool ico_cmd).1 ≠ 0) :
    run env fs0 =
      { fs := (output_file 32, (env.tool (convCmd 32)).2) ::
              (output_file 192, (env.tool (convCmd 192)).2) ::
              (output_file 96, (env.tool (convCmd 96)).2) ::
              (output_file 48, (env.tool (convCmd 48)).2) :: fs0,
        exitCode := 1,
        invoked := allCmds,
        printed := ["✓ Generated " ++ output_file 48,
                    "✓ Generated " ++ output_file 96,
                    "✓ Generated " ++ output_file 192,
                    "✓ Generated " ++ output_file 32,
                    "", "Generating favicon.ico with multiple sizes...",
                    "✗ Failed to generate favicon.ico"] } := by
  simp [run, check_dependencies, hp, generate_png_favicons, hs, sizes,
        convertAll, convStep, icoStep, h48, h96, h192, h32, hico, allCmds]

/-- The fully successful run. -/
theorem run_success (env : Env) (fs0 : FS) (hp : env.probe = ProbeResult.ok)
    (hs : (findFile fs0 svg_file).isSome = true)
    (h48 : (env.tool (convCmd 48)).1 = 0)
    (h96 : (env.tool (convCmd 96)).1 = 0)
    (h192 : (env.tool (convCmd 192)).1 = 0)
    (h32 : (env.tool (convCmd 32)).1 = 0)
    (hico : (env.tool ico_cmd).1 = 0) :
    run env fs0 =
      { fs := (icoFile, (env.tool ico_cmd).2) ::
              (output_file 32, (env.tool (convCmd 32)).2) ::
              (output_file 192, (env.tool (convCmd 192)).2) ::
              (output_file 96, (env.tool (convCmd 96)).2) ::
              (output_file 48, (env.tool (convCmd 48)).2) :: fs0,
        exitCode := 0,
        invoked := allCmds,
        printed := ["✓ Generated " ++ output_file 48,
                    "✓ Generated " ++ output_file 96,
                    "✓ Generated " ++ output_file 192,
                    "✓ Generated " ++ output_file 32,
                    "", "Generating favicon.ico with multiple sizes...",
                    "✓ Generated public/favicon.ico"] ++ successLines } := by
  simp [run, check_dependencies, hp, generate_png_favicons, hs, sizes,
        convertAll, convStep, icoStep, h48, h96, h192, h32, hico, allCmds]

/-! ### Small helper lemmas -/

theorem output_file_32 : output_file 32 = "public/favicon-32x32.png" := by decide

theorem output_file_48 : output_file 48 = "public/favicon-48x48.png" := by decide

theorem output_file_96 : output_file 96 = "public/favicon-96x96.png" := by decide

theorem output_file_192 : output_file 192 = "public/favicon-192x192.png" := by decide

theorem findFile_cons_ne (q p : String) (b : List Nat) (fs : FS) (h : q ≠ p) :
    findFile ((q, b) :: fs) p = findFile fs p := by
  simp [findFile, h]

theorem findFile_cons_self (q : String) (b : List Nat) (fs : FS) :
    findFile ((q, b) :: fs) q = some b := by
  simp [findFile]

theorem ico_ne_svg : icoFile ≠ svg_file := by decide

theorem out32_ne_svg : output_file 32 ≠ svg_file := by decide

theorem out48_ne_svg : output_file 48 ≠ svg_file := by decide

theorem out96_ne_svg : output_file 96 ≠ svg_file := by decide

theorem out192_ne_svg : output_file 192 ≠ svg_file := by decide

theorem findFile_append_some (S fs : FS) (p : String) (b : List Nat)
    (h : findFile S p = some b) : findFile (S ++ fs) p = some b := by
  induction S with
  | nil => simp [findFile] at h
  | cons w S ih =>
    obtain ⟨q, c⟩ := w
    by_cases hq : q = p
    · simp [findFile, hq] at h ⊢; exact h
    · simp [findFile, hq] at h ⊢; exact ih h

theorem findFile_append_none (S fs : FS) (p : String)
    (h : findFile S p = none) : findFile (S ++ fs) p = findFile fs p := by
  induction S with
  | nil => rfl
  | cons w S ih =>
    obtain ⟨q, c⟩ := w
    by_cases hq : q = p
    · simp [findFile, hq] at h
    · simp [findFile, hq] at h ⊢; exact ih h

/-- Re-writing the same stack of files on top of a filesystem that already
carries that stack does not change any lookup. -/
theorem findFile_overwrite (S fs : FS) (p : String) :
    findFile (S ++ (S ++ fs)) p = findFile (S ++ fs) p := by
  cases hsp : findFile S p with
  | some b =>
    rw [findFile_append_some S _ p b hsp, findFile_append_some S _ p b hsp]
  | none =>
    rw [findFile_append_none S _ p hsp, findFile_append_none S _ p hsp]

/-- Case analysis on a whole run: the eight possible stopping points, each
with its exact `RunResult`. -/
theorem run_shape (env : Env) (fs0 : FS) (P : RunResult → Prop)
    (hcase1 : env.probe ≠ ProbeResult.ok →
      P { fs := fs0, exitCode := 1, invoked := [probeCmd],
          printed := ["Error: ImageMagick is not installed.",
                      "Install it with: brew install imagemagick"] })
    (hcase2 : env.probe = ProbeResult.ok → findFile fs0 svg_file = none →
      P { fs := fs0, exitCode := 1, invoked := [probeCmd],
          printed := ["Error: " ++ svg_file ++ " not found"] })
    (hcase3 : env.probe = ProbeResult.ok →
      (findFile fs0 svg_file).isSome = true →
      (env.tool (convCmd 48)).1 ≠ 0 →
      P { fs := fs0, exitCode := 1, invoked := [probeCmd, convCmd 48],
          printed := ["✗ Failed to generate " ++ output_file 48] })
    (hcase4 : env.probe = ProbeResult.ok →
      (findFile fs0 svg_file).isSome = true →
      (env.tool (convCmd 48)).1 = 0 → (env.tool (convCmd 96)).1 ≠ 0 →
      P { fs := (output_file 48, (env.tool (convCmd 48)).2) :: fs0,
          exitCode := 1,
          invoked := [probeCmd, convCmd 48, convCmd 96],
          printed := ["✓ Generated " ++ output_file 48,
                      "✗ Failed to generate " ++ output_file 96] })
    (hcase5 : env.probe = ProbeResult.ok →
      (findFile fs0 svg_file).isSome = true →
      (env.tool (convCmd 48)).1 = 0 → (env.tool (convCmd 96)).1 = 0 →
      (env.tool (convCmd 192)).1 ≠ 0 →
      P { fs := (output_file 96, (env.tool (convCmd 96)).2) ::
                (output_file 48, (env.tool (convCmd 48)).2) :: fs0,
          exitCode := 1,
          invoked := [probeCmd, convCmd 48, convCmd 96, convCmd 192],
          printed := ["✓ Generated " ++ output_file 48,
                      "✓ Generated " ++ output_file 96,
                      "✗ Failed to generate " ++ output_file 192] })
    (hcase6 : env.probe = ProbeResult.ok →
      (findFile fs0 svg_file).isSome = true →
      (env.tool (convCmd 48)).1 = 0 → (env.tool (convCmd 96)).1 = 0 →
      (env.tool (convCmd 192)).1 = 0 → (env.tool (convCmd 32)).1 ≠ 0 →
      P { fs := (output_file 192, (env.tool (convCmd 192)).2) ::
                (output_file 96, (env.tool (convCmd 96)).2) ::
                (output_file 48, (env.tool (convCmd 48)).2) :: fs0,
          exitCode := 1,
          invoked := [probeCmd, convCmd 48, convCmd 96, convCmd 192, convCmd 32],
          printed := ["✓ Generated " ++ output_file 48,
                      "✓ Generated " ++ output_file 96,
                      "✓ Generated " ++ output_file 192,
                      "✗ Failed to generate " ++ output_file 32] })
    (hcase7 : env.probe = ProbeResult.ok →
      (findFile fs0 svg_file).isSome = true →
      (env.tool (convCmd 48)).1 = 0 → (env.tool (convCmd 96)).1 = 0 →
      (env.tool (convCmd 192)).1 = 0 → (env.tool (convCmd 32)).1 = 0 →
      (env.tool ico_cmd).1 ≠ 0 →
      P { fs := (output_file 32, (env.tool (convCmd 32)).2) ::
                (output_file 192, (env.tool (convCmd 192)).2) ::
                (output_file 96, (env.tool (convCmd 96)).2) ::
                (output_file 48, (env.tool (convCmd 48)).2) :: fs0,
          exitCode := 1,
          invoked := allCmds,
          printed := ["✓ Generated " ++ output_file 48,
                      "✓ Generated " ++ output_file 96,
                      "✓ Generated " ++ output_file 192,
                      "✓ Generated " ++ output_file 32,
                      "", "Generating favicon.ico with multiple sizes...",
                      "✗ Failed to generate favicon.ico"] })
    (hcase8 : env.probe = ProbeResult.ok →
      (findFile fs0 svg_file).isSome = true →
      (env.tool (convCmd 48)).1 = 0 → (env.tool (convCmd 96)).1 = 0 →
      (env.tool (convCmd 192)).1 = 0 → (env.tool (convCmd 32)).1 = 0 →
      (env.tool ico_cmd).1 = 0 →
      P { fs := (icoFile, (env.tool ico_cmd).2) ::
                (output_file 32, (env.tool (convCmd 32)).2) ::
                (output_file 192, (env.tool (convCmd 192)).2) ::
                (output_file 96, (env.tool (convCmd 96)).2) ::
                (output_file 48, (env.tool (convCmd 48)).2) :: fs0,
          exitCode := 0,
          invoked := allCmds,
          printed := ["✓ Generated " ++ output_file 48,
                      "✓ Generated " ++ output_file 96,
                      "✓ Generated " ++ output_file 192,
                      "✓ Generated " ++ output_file 32,
                      "", "Generating favicon.ico with multiple sizes...",
                      "✓ Generated public/favicon.ico"] ++ successLines }) :
    P (run env fs0) := by
  by_cases hp : env.probe = ProbeResult.ok
  · by_cases hsn : findFile fs0 svg_file = none
    · rw [run_svg_missing env fs0 hp hsn]; exact hcase2 hp hsn
    · have hs : (findFile fs0 svg_file).isSome = true :=
        Option.ne_none_iff_isSome.mp hsn
      by_cases h48 : (env.tool (convCmd 48)).1 = 0
      · by_cases h96 : (env.tool (convCmd 96)).1 = 0
        · by_cases h192 : (env.tool (convCmd 192)).1 = 0
          · by_cases h32 : (env.tool (convCmd 32)).1 = 0
            · by_cases hico : (env.tool ico_cmd).1 = 0
              · rw [run_success env fs0 hp hs h48 h96 h192 h32 hico]
                exact hcase8 hp hs h48 h96 h192 h32 hico
              · rw [run_fail_ico env fs0 hp hs h48 h96 h192 h32 hico]
                exact hcase7 hp hs h48 h96 h192 h32 hico
            · rw [run_fail_32 env fs0 hp hs h48 h96 h192 h32]
              exact hcase6 hp hs h48 h96 h192 h32
          · rw [run_fail_192 env fs0 hp hs h48 h96 h192]
            exact hcase5 hp hs h48 h96 h192
        · rw [run_fail_96 env fs0 hp hs h48 h96]
          exact hcase4 hp hs h48 h96
      · rw [run_fail_48 env fs0 hp hs h48]
        exact hcase3 hp hs h48
  · rw [run_probe_fail env fs0 hp]
    exact hcase1 hp

/-! ### The claims -/

/-- C2: in every run the three pipeline steps are attempted in the fixed
order CheckCapability (the probe), then GenerateRasterSet (the PNG
conversions), then BuildIconContainer (the ICO bundling): the invocation
trace always begins with the probe and is a prefix of the full fixed command
sequence; and no later step is ever attempted once an earlier one has
failed: a failing probe — and likewise a missing SVG — leaves the trace at
exactly the probe (the raster and bundling steps are never attempted), and
whenever the tool fails a conversion, every command that comes after that
conversion (the remaining conversions and the bundling) never appears in
the trace. -/
theorem C2_pipeline_order (env : Env) (fs0 : FS) :
    ((run env fs0).invoked.head? = some probeCmd ∧
     (run env fs0).invoked <+: allCmds) ∧
    (env.probe ≠ ProbeResult.ok → (run env fs0).invoked = [probeCmd]) ∧
    (findFile fs0 svg_file = none → (run env fs0).invoked = [probeCmd]) ∧
    ((env.tool (convCmd 48)).1 ≠ 0 →
      convCmd 96 ∉ (run env fs0).invoked ∧
      convCmd 192 ∉ (run env fs0).invoked ∧
      convCmd 32 ∉ (run env fs0).invoked ∧
      ico_cmd ∉ (run env fs0).invoked) ∧
    ((env.tool (convCmd 96)).1 ≠ 0 →
      convCmd 192 ∉ (run env fs0).invoked ∧
      convCmd 32 ∉ (run env fs0).invoked ∧
      ico_cmd ∉ (run env fs0).invoked) ∧
    ((env.tool (convCmd 192)).1 ≠ 0 →
      convCmd 32 ∉ (run env fs0).invoked ∧
      ico_cmd ∉ (run env fs0).invoked) ∧
    ((env.tool (convCmd 32)).1 ≠ 0 →
      ico_cmd ∉ (run env fs0).invoked) := by
  have nb1 : convCmd 96 ∉ [probeCmd] ∧ convCmd 192 ∉ [probeCmd] ∧
      convCmd 32 ∉ [probeCmd] ∧ ico_cmd ∉ [probeCmd] := by decide
  have nb2 : convCmd 96 ∉ [probeCmd, convCmd 48] ∧
      convCmd 192 ∉ [probeCmd, convCmd 48] ∧
      convCmd 32 ∉ [probeCmd, convCmd 48] ∧
      ico_cmd ∉ [probeCmd, convCmd 48] := by decide
  have nb3 : convCmd 192 ∉ [probeCmd, convCmd 48, convCmd 96] ∧
      convCmd 32 ∉ [probeCmd, convCmd 48, convCmd 96] ∧
      ico_cmd ∉ [probeCmd, convCmd 48, convCmd 96] := by decide
  have nb4 : convCmd 32 ∉ [probeCmd, convCmd 48, convCmd 96, convCmd 192] ∧
      ico_cmd ∉ [probeCmd, convCmd 48, convCmd 96, convCmd 192] := by decide
  have nb5 : ico_cmd ∉
      [probeCmd, convCmd 48, convCmd 96, convCmd 192, convCmd 32] := by decide
  refine run_shape env fs0
    (fun r =>
      ((r.invoked.head? = some probeCmd ∧ r.invoked <+: allCmds) ∧
       (env.probe ≠ ProbeResult.ok → r.invoked = [probeCmd]) ∧
       (findFile fs0 svg_file = none → r.invoked = [probeCmd]) ∧
       ((env.tool (convCmd 48)).1 ≠ 0 →
         convCmd 96 ∉ r.invoked ∧ convCmd 192 ∉ r.invoked ∧
         convCmd 32 ∉ r.invoked ∧ ico_cmd ∉ r.invoked) ∧
       ((env.tool (convCmd 96)).1 ≠ 0 →
         convCmd 192 ∉ r.invoked ∧ convCmd 32 ∉ r.invoked ∧
         ico_cmd ∉ r.invoked) ∧
       ((env.tool (convCmd 192)).1 ≠ 0 →
         convCmd 32 ∉ r.invoked ∧ ico_cmd ∉ r.invoked) ∧
       ((env.tool (convCmd 32)).1 ≠ 0 → ico_cmd ∉ r.invoked)))
    ?_ ?_ ?_ ?_ ?_ ?_ ?_ ?_
  · intro hp
    exact ⟨⟨rfl, ⟨[convCmd 48, convCmd 96, convCmd 192, convCmd 32, ico_cmd], rfl⟩⟩,
      fun _ => rfl, fun _ => rfl,
      fun _ => ⟨nb1.1, nb1.2.1, nb1.2.2.1, nb1.2.2.2⟩,
      fun _ => ⟨nb1.2.1, nb1.2.2.1, nb1.2.2.2⟩,
      fun _ => ⟨nb1.2.2.1, nb1.2.2.2⟩,
      fun _ => nb1.2.2.2⟩
  · intro hp hsn
    exact ⟨⟨rfl, ⟨[convCmd 48, convCmd 96, convCmd 192, convCmd 32, ico_cmd], rfl⟩⟩,
      fun habs => absurd hp habs, fun _ => rfl,
      fun _ => ⟨nb1.1, nb1.2.1, nb1.2.2.1, nb1.2.2.2⟩,
      fun _ => ⟨nb1.2.1, nb1.2.2.1, nb1.2.2.2⟩,
      fun _ => ⟨nb1.2.2.1, nb1.2.2.2⟩,
      fun _ => nb1.2.2.2⟩
  · intro hp hs h48
    exact ⟨⟨rfl, ⟨[convCmd 96, convCmd 192, convCmd 32, ico_cmd], rfl⟩⟩,
      fun habs => absurd hp habs,
      fun hnone => by simp [hnone] at hs,
      fun _ => ⟨nb2.1, nb2.2.1, nb2.2.2.1, nb2.2.2.2⟩,
      fun _ => ⟨nb2.2.1, nb2.2.2.1, nb2.2.2.2⟩,
      fun _ => ⟨nb2.2.2.1, nb2.2.2.2⟩,
      fun _ => nb2.2.2.2⟩
  · intro hp hs h48 h96
    exact ⟨⟨rfl, ⟨[convCmd 192, convCmd 32, ico_cmd], rfl⟩⟩,
      fun habs => absurd hp habs,
      fun hnone => by simp [hnone] at hs,
      fun habs => absurd h48 habs,
      fun _ => ⟨nb3.1, nb3.2.1, nb3.2.2⟩,
      fun _ => ⟨nb3.2.1, nb3.2.2⟩,
      fun _ => nb3.2.2⟩
  · intro hp hs h48 h96 h192
    exact ⟨⟨rfl, ⟨[convCmd 32, ico_cmd], rfl⟩⟩,
      fun habs => absurd hp habs,
      fun hnone => by simp [hnone] at hs,
      fun habs => absurd h48 habs,
      fun habs => absurd h96 habs,
      fun _ => ⟨nb4.1, nb4.2⟩,
      fun _ => nb4.2⟩
  · intro hp hs h48 h96 h192 h32
    exact ⟨⟨rfl, ⟨[ico_cmd], rfl⟩⟩,
      fun habs => absurd hp habs,
      fun hnone => by simp [hnone] at hs,
      fun habs => absurd h48 habs,
      fun habs => absurd h96 habs,
      fun habs => absurd h192 habs,
      fun _ => nb5⟩
  · intro hp hs h48 h96 h192 h32 hico
    exact ⟨⟨rfl, ⟨[], rfl⟩⟩,
      fun habs => absurd hp habs,
      fun hnone => by simp [hnone] at hs,
      fun habs => absurd h48 habs,
      fun habs => absurd h96 habs,
      fun habs => absurd h192 habs,
      fun habs => absurd h32 habs⟩
  · intro hp hs h48 h96 h192 h32 hico
    exact ⟨⟨rfl, ⟨[], rfl⟩⟩,
      fun habs => absurd hp habs,
      fun hnone => by simp [hnone] at hs,
      fun habs => absurd h48 habs,
      fun habs => absurd h96 habs,
      fun habs => absurd h192 habs,
      fun habs => absurd h32 habs⟩

/-- C3: the process exit status is 0 exactly when the probe succeeds, the
SVG exists and all five tool invocations exit 0; in every other case (probe
failure, missing source, or any failing invocation) it is exactly 1. -/
theorem C3_exit_status (env : Env) (fs0 : FS) :
    ((run env fs0).exitCode = 0 ∨ (run env fs0).exitCode = 1) ∧
    ((run env fs0).exitCode = 0 ↔
      (env.probe = ProbeResult.ok ∧ (findFile fs0 svg_file).isSome = true ∧
       (env.tool (convCmd 48)).1 = 0 ∧ (env.tool (convCmd 96)).1 = 0 ∧
       (env.tool (convCmd 192)).1 = 0 ∧ (env.tool (convCmd 32)).1 = 0 ∧
       (env.tool ico_cmd).1 = 0)) := by
  refine run_shape env fs0
    (fun r => (r.exitCode = 0 ∨ r.exitCode = 1) ∧
      (r.exitCode = 0 ↔
        (env.probe = ProbeResult.ok ∧ (findFile fs0 svg_file).isSome = true ∧
         (env.tool (convCmd 48)).1 = 0 ∧ (env.tool (convCmd 96)).1 = 0 ∧
         (env.tool (convCmd 192)).1 = 0 ∧ (env.tool (convCmd 32)).1 = 0 ∧
         (env.tool ico_cmd).1 = 0)))
    ?_ ?_ ?_ ?_ ?_ ?_ ?_ ?_
  · intro h; exact ⟨Or.inr rfl, by simp [h]⟩
  · intro _ h; exact ⟨Or.inr rfl, by simp [h]⟩
  · intro _ _ h; exact ⟨Or.inr rfl, by simp [h]⟩
  · intro _ _ _ h; exact ⟨Or.inr rfl, by simp [h]⟩
  · intro _ _ _ _ h; exact ⟨Or.inr rfl, by simp [h]⟩
  · intro _ _ _ _ _ h; exact ⟨Or.inr rfl, by simp [h]⟩
  · intro _ _ _ _ _ _ h; exact ⟨Or.inr rfl, by simp [h]⟩
  · intro hp hs h48 h96 h192 h32 hico
    exact ⟨Or.inl rfl, by simp [hp, hs, h48, h96, h192, h32, hico]⟩

/-- C5: if the capability probe fails, or the source SVG is absent, the
process exits with status 1, the filesystem is unchanged (no output created
or modified), and the only external invocation is the probe — no `convert`
conversion command is ever issued. -/
theorem C5_early_failure_no_effect (env : Env) (fs0 : FS)
    (h : env.probe ≠ ProbeResult.ok ∨ findFile fs0 svg_file = none) :
    (run env fs0).exitCode = 1 ∧ (run env fs0).fs = fs0 ∧
    (run env fs0).invoked = [probeCmd] := by
  rcases h with h | h
  · rw [run_probe_fail env fs0 h]; exact ⟨rfl, rfl, rfl⟩
  · by_cases hp : env.probe = ProbeResult.ok
    · rw [run_svg_missing env fs0 hp h]; exact ⟨rfl, rfl, rfl⟩
    · rw [run_probe_fail env fs0 hp]; exact ⟨rfl, rfl, rfl⟩

/-- C5 witness: a concrete run whose probe raises `FileNotFoundError`. -/
theorem C5_witness :
    (run envProbeFNF fsSvg).exitCode = 1 ∧ (run envProbeFNF fsSvg).fs = fsSvg ∧
    (run envProbeFNF fsSvg).invoked = [probeCmd] :=
  C5_early_failure_no_effect envProbeFNF fsSvg (Or.inl (by decide))

/-- C10: the capability check does not distinguish a missing executable
(`FileNotFoundError`) from a present-but-failing one (`CalledProcessError`):
any two runs whose probes fail in either way produce identical results, with
exit status 1 and the same missing-ImageMagick message and install hint. -/
theorem C10_probe_indistinguishable (env env' : Env) (fs0 : FS)
    (h : env.probe ≠ ProbeResult.ok) (h' : env'.probe ≠ ProbeResult.ok) :
    run env fs0 = run env' fs0 ∧
    (run env fs0).exitCode = 1 ∧
    (run env fs0).printed =
      ["Error: ImageMagick is not installed.",
       "Install it with: brew install imagemagick"] := by
  rw [run_probe_fail env fs0 h, run_probe_fail env' fs0 h']
  exact ⟨rfl, rfl, rfl⟩

/-- C10 witness: a `CalledProcessError` probe and a `FileNotFoundError`
probe, compared on the same concrete filesystem. -/
theorem C10_witness :
    run envProbeCPE fsSvg = run envProbeFNF fsSvg ∧
    (run envProbeCPE fsSvg).exitCode = 1 ∧
    (run envProbeCPE fsSvg).printed =
      ["Error: ImageMagick is not installed.",
       "Install it with: brew install imagemagick"] :=
  C10_probe_indistinguishable envProbeCPE envProbeFNF fsSvg (by decide) (by decide)

/-- C1: when the source SVG exists and every `convert` invocation succeeds
(with, as a successful conversion produces, non-empty output bytes), the
process exits 0, each of the five fixed output paths holds a non-empty file,
and no path outside the five is created or modified. -/
theorem C1_full_success_outputs (env : Env) (fs0 : FS)
    (hp : env.probe = ProbeResult.ok)
    (hs : (findFile fs0 svg_file).isSome = true)
    (hok : ∀ c ∈ convCmds, (env.tool c).1 = 0 ∧ (env.tool c).2 ≠ []) :
    (run env fs0).exitCode = 0 ∧
    (∀ p ∈ outputPaths, ∃ b, findFile (run env fs0).fs p = some b ∧ b ≠ []) ∧
    (∀ p, p ∉ outputPaths → findFile (run env fs0).fs p = findFile fs0 p) := by
  simp only [convCmds, List.mem_cons, List.not_mem_nil, or_false,
    forall_eq_or_imp, forall_eq] at hok
  obtain ⟨⟨h48, n48⟩, ⟨h96, n96⟩, ⟨h192, n192⟩, ⟨h32, n32⟩, ⟨hico, nico⟩⟩ := hok
  rw [run_success env fs0 hp hs h48 h96 h192 h32 hico]
  refine ⟨rfl, ?_, ?_⟩
  · intro p hmem
    simp only [outputPaths, List.mem_cons, List.not_mem_nil, or_false] at hmem
    rcases hmem with rfl | rfl | rfl | rfl | rfl
    · exact ⟨(env.tool (convCmd 48)).2,
        by simp [findFile, output_file_32, output_file_48, output_file_96,
                 output_file_192, icoFile], n48⟩
    · exact ⟨(env.tool (convCmd 96)).2,
        by simp [findFile, output_file_32, output_file_48, output_file_96,
                 output_file_192, icoFile], n96⟩
    · exact ⟨(env.tool (convCmd 192)).2,
        by simp [findFile, output_file_32, output_file_48, output_file_96,
                 output_file_192, icoFile], n192⟩
    · exact ⟨(env.tool (convCmd 32)).2,
        by simp [findFile, output_file_32, output_file_48, output_file_96,
                 output_file_192, icoFile], n32⟩
    · exact ⟨(env.tool ico_cmd).2,
        by simp [findFile, output_file_32, output_file_48, output_file_96,
                 output_file_192, icoFile], nico⟩
  · intro p hmem
    simp only [outputPaths, List.mem_cons, List.not_mem_nil, or_false,
      not_or] at hmem
    obtain ⟨hne48, hne96, hne192, hne32, hneico⟩ := hmem
    simp [findFile, Ne.symm hne48, Ne.symm hne96, Ne.symm hne192,
          Ne.symm hne32, Ne.symm hneico]

/-- C1 witness: a concrete fully successful run. -/
theorem C1_witness :
    (run envAllOk fsSvg).exitCode = 0 ∧
    (∀ p ∈ outputPaths, ∃ b, findFile (run envAllOk fsSvg).fs p = some b ∧ b ≠ []) ∧
    (∀ p, p ∉ outputPaths →
      findFile (run envAllOk fsSvg).fs p = findFile fsSvg p) :=
  C1_full_success_outputs envAllOk fsSvg rfl (by decide) (by decide)

/-- C6: in a fully successful run the invocation trace consists, verbatim,
of the probe, the four per-size conversions — each invoked as
`convert -background none -density 300 -resize NxN public/favicon.svg
public/favicon-NxN.png`, the output path derived from the dimension — and
the bundling command. -/
theorem C6_conversion_command_arguments (env : Env) (fs0 : FS)
    (hp : env.probe = ProbeResult.ok)
    (hs : (findFile fs0 svg_file).isSome = true)
    (h48 : (env.tool (convCmd 48)).1 = 0)
    (h96 : (env.tool (convCmd 96)).1 = 0)
    (h192 : (env.tool (convCmd 192)).1 = 0)
    (h32 : (env.tool (convCmd 32)).1 = 0)
    (hico : (env.tool ico_cmd).1 = 0) :
    (run env fs0).invoked =
      [["convert", "--version"],
       ["convert", "-background", "none", "-density", "300", "-resize",
        "48x48", "public/favicon.svg", "public/favicon-48x48.png"],
       ["convert", "-background", "none", "-density", "300", "-resize",
        "96x96", "public/favicon.svg", "public/favicon-96x96.png"],
       ["convert", "-background", "none", "-density", "300", "-resize",
        "192x192", "public/favicon.svg", "public/favicon-192x192.png"],
       ["convert", "-background", "none", "-density", "300", "-resize",
        "32x32", "public/favicon.svg", "public/favicon-32x32.png"],
       ["convert", "public/favicon-32x32.png", "public/favicon-48x48.png",
        "public/favicon.ico"]] := by
  rw [run_success env fs0 hp hs h48 h96 h192 h32 hico]
  have h : allCmds =
      [["convert", "--version"],
       ["convert", "-background", "none", "-density", "300", "-resize",
        "48x48", "public/favicon.svg", "public/favicon-48x48.png"],
       ["convert", "-background", "none", "-density", "300", "-resize",
        "96x96", "public/favicon.svg", "public/favicon-96x96.png"],
       ["convert", "-background", "none", "-density", "300", "-resize",
        "192x192", "public/favicon.svg", "public/favicon-192x192.png"],
       ["convert", "-background", "none", "-density", "300", "-resize",
        "32x32", "public/favicon.svg", "public/favicon-32x32.png"],
       ["convert", "public/favicon-32x32.png", "public/favicon-48x48.png",
        "public/favicon.ico"]] := by decide
  exact h

/-- C6 witness: the concrete fully successful run. -/
theorem C6_witness :
    (run envAllOk fsSvg).invoked =
      [["convert", "--version"],
       ["convert", "-background", "none", "-density", "300", "-resize",
        "48x48", "public/favicon.svg", "public/favicon-48x48.png"],
       ["convert", "-background", "none", "-density", "300", "-resize",
        "96x96", "public/favicon.svg", "public/favicon-96x96.png"],
       ["convert", "-background", "none", "-density", "300", "-resize",
        "192x192", "public/favicon.svg", "public/favicon-192x192.png"],
       ["convert", "-background", "none", "-density", "300", "-resize",
        "32x32", "public/favicon.svg", "public/favicon-32x32.png"],
       ["convert", "public/favicon-32x32.png", "public/favicon-48x48.png",
        "public/favicon.ico"]] :=
  C6_conversion_command_arguments envAllOk fsSvg rfl (by decide)
    rfl rfl rfl rfl rfl

/-- C7: once the four PNG conversions have succeeded the bundling command is
invoked exactly once, as the last invocation, with exactly the 32x32 and
48x48 rasters as inputs in that order — whether or not it itself succeeds,
and with no condition on `fs0` at those two paths (the source performs no
re-verification that the inputs exist). -/
theorem C7_ico_bundling_once_last (env : Env) (fs0 : FS)
    (hp : env.probe = ProbeResult.ok)
    (hs : (findFile fs0 svg_file).isSome = true)
    (h48 : (env.tool (convCmd 48)).1 = 0)
    (h96 : (env.tool (convCmd 96)).1 = 0)
    (h192 : (env.tool (convCmd 192)).1 = 0)
    (h32 : (env.tool (convCmd 32)).1 = 0) :
    (run env fs0).invoked = allCmds ∧
    (run env fs0).invoked.count ico_cmd = 1 ∧
    (run env fs0).invoked.getLast? = some ico_cmd ∧
    ico_cmd = ["convert", "public/favicon-32x32.png", "public/favicon-48x48.png",
               "public/favicon.ico"] := by
  have hcount : List.count ico_cmd allCmds = 1 := by decide
  have hlast : allCmds.getLast? = some ico_cmd := by decide
  by_cases hico : (env.tool ico_cmd).1 = 0
  · rw [run_success env fs0 hp hs h48 h96 h192 h32 hico]
    exact ⟨rfl, hcount, hlast, rfl⟩
  · rw [run_fail_ico env fs0 hp hs h48 h96 h192 h32 hico]
    exact ⟨rfl, hcount, hlast, rfl⟩

/-- C7 witness: the concrete fully successful run. -/
theorem C7_witness :
    (run envAllOk fsSvg).invoked = allCmds ∧
    (run envAllOk fsSvg).invoked.count ico_cmd = 1 ∧
    (run envAllOk fsSvg).invoked.getLast? = some ico_cmd ∧
    ico_cmd = ["convert", "public/favicon-32x32.png", "public/favicon-48x48.png",
               "public/favicon.ico"] :=
  C7_ico_bundling_once_last envAllOk fsSvg rfl (by decide) rfl rfl rfl rfl

/-- C8 counterexample: the claim that conversions happen in size-ascending
order fails at the pair (32, 192): in a concrete fully successful run the
32x32 conversion (the smaller) is invoked after the 192x192 one. -/
theorem C8_counterexample :
    32 < 192 ∧
    ¬ ((run envAllOk fsSvg).invoked.indexOf (convCmd 32) <
       (run envAllOk fsSvg).invoked.indexOf (convCmd 192)) := by
  decide

/-- C8 as amended: the three standard dimensions are converted in the
ascending declared order 48, 96, 192, and the legacy dimension 32 is
converted last, after them (not in ascending position). -/
theorem C8_amended_order (env : Env) (fs0 : FS)
    (hp : env.probe = ProbeResult.ok)
    (hs : (findFile fs0 svg_file).isSome = true)
    (h48 : (env.tool (convCmd 48)).1 = 0)
    (h96 : (env.tool (convCmd 96)).1 = 0)
    (h192 : (env.tool (convCmd 192)).1 = 0)
    (h32 : (env.tool (convCmd 32)).1 = 0)
    (hico : (env.tool ico_cmd).1 = 0) :
    (run env fs0).invoked = allCmds ∧
    ((run env fs0).invoked.indexOf (convCmd 48) <
       (run env fs0).invoked.indexOf (convCmd 96) ∧
     (run env fs0).invoked.indexOf (convCmd 96) <
       (run env fs0).invoked.indexOf (convCmd 192) ∧
     (run env fs0).invoked.indexOf (convCmd 192) <
       (run env fs0).invoked.indexOf (convCmd 32)) := by
  have horder :
      List.indexOf (convCmd 48) allCmds < List.indexOf (convCmd 96) allCmds ∧
      List.indexOf (convCmd 96) allCmds < List.indexOf (convCmd 192) allCmds ∧
      List.indexOf (convCmd 192) allCmds < List.indexOf (convCmd 32) allCmds := by
    decide
  rw [run_success env fs0 hp hs h48 h96 h192 h32 hico]
  exact ⟨rfl, horder⟩

/-- C8 witness: the concrete fully successful run. -/
theorem C8_witness :
    (run envAllOk fsSvg).invoked = allCmds ∧
    ((run envAllOk fsSvg).invoked.indexOf (convCmd 48) <
       (run envAllOk fsSvg).invoked.indexOf (convCmd 96) ∧
     (run envAllOk fsSvg).invoked.indexOf (convCmd 96) <
       (run envAllOk fsSvg).invoked.indexOf (convCmd 192) ∧
     (run envAllOk fsSvg).invoked.indexOf (convCmd 192) <
       (run envAllOk fsSvg).invoked.indexOf (convCmd 32)) :=
  C8_amended_order envAllOk fsSvg rfl (by decide) rfl rfl rfl rfl rfl

/-- C4: if the tool fails on the N-th of the four size conversions
(processing order 48, 96, 192, 32) after succeeding on the earlier ones,
then — on a filesystem not already holding the later outputs — the outputs
for sizes before N exist, the outputs for size N and after do not, the
invocation trace stops at the failing conversion (no further conversion and
no bundling is attempted, nothing is cleaned up), and the process exits 1. -/
theorem C4_fail_at_nth (env : Env) (fs0 : FS) (n : Nat) (hn : n < 4)
    (hp : env.probe = ProbeResult.ok)
    (hs : (findFile fs0 svg_file).isSome = true)
    (hbefore : ∀ i, i < n → (env.tool (convCmd (sizes4.getD i 0))).1 = 0)
    (hfail : (env.tool (convCmd (sizes4.getD n 0))).1 ≠ 0)
    (hfresh : ∀ i, n ≤ i → i < 4 →
      findFile fs0 (output_file (sizes4.getD i 0)) = none) :
    (run env fs0).exitCode = 1 ∧
    (∀ i, i < n → ∃ b,
      findFile (run env fs0).fs (output_file (sizes4.getD i 0)) = some b) ∧
    (∀ i, n ≤ i → i < 4 →
      findFile (run env fs0).fs (output_file (sizes4.getD i 0)) = none) ∧
    (run env fs0).invoked =
      probeCmd :: (List.range (n + 1)).map (fun i => convCmd (sizes4.getD i 0)) := by
  interval_cases n
  · rw [run_fail_48 env fs0 hp hs hfail]
    refine ⟨rfl, ?_, ?_, ?_⟩
    · intro i hi; exact absurd hi (Nat.not_lt_zero i)
    · exact fun i h1 h2 => hfresh i h1 h2
    · have h : ([probeCmd, convCmd 48] : List (List String)) =
          probeCmd :: (List.range (0 + 1)).map (fun i => convCmd (sizes4.getD i 0)) := by
        decide
      exact h
  · rw [run_fail_96 env fs0 hp hs (hbefore 0 (by omega)) hfail]
    refine ⟨rfl, ?_, ?_, ?_⟩
    · intro i hi
      interval_cases i
      exact ⟨(env.tool (convCmd 48)).2, findFile_cons_self _ _ _⟩
    · intro i h1 h2
      dsimp only
      interval_cases i
      · rw [findFile_cons_ne (output_file 48) _ _ _ (by decide)]
        exact hfresh 1 (by omega) (by omega)
      · rw [findFile_cons_ne (output_file 48) _ _ _ (by decide)]
        exact hfresh 2 (by omega) (by omega)
      · rw [findFile_cons_ne (output_file 48) _ _ _ (by decide)]
        exact hfresh 3 (by omega) (by omega)
    · have h : ([probeCmd, convCmd 48, convCmd 96] : List (List String)) =
          probeCmd :: (List.range (1 + 1)).map (fun i => convCmd (sizes4.getD i 0)) := by
        decide
      exact h
  · rw [run_fail_192 env fs0 hp hs (hbefore 0 (by omega)) (hbefore 1 (by omega)) hfail]
    refine ⟨rfl, ?_, ?_, ?_⟩
    · intro i hi
      dsimp only
      interval_cases i
      · refine ⟨(env.tool (convCmd 48)).2, ?_⟩
        rw [findFile_cons_ne (output_file 96) _ _ _ (by decide)]
        exact findFile_cons_self _ _ _
      · exact ⟨(env.tool (convCmd 96)).2, findFile_cons_self _ _ _⟩
    · intro i h1 h2
      dsimp only
      interval_cases i
      · rw [findFile_cons_ne (output_file 96) _ _ _ (by decide),
            findFile_cons_ne (output_file 48) _ _ _ (by decide)]
        exact hfresh 2 (by omega) (by omega)
      · rw [findFile_cons_ne (output_file 96) _ _ _ (by decide),
            findFile_cons_ne (output_file 48) _ _ _ (by decide)]
        exact hfresh 3 (by omega) (by omega)
    · have h : ([probeCmd, convCmd 48, convCmd 96, convCmd 192] : List (List String)) =
          probeCmd :: (List.range (2 + 1)).map (fun i => convCmd (sizes4.getD i 0)) := by
        decide
      exact h
  · rw [run_fail_32 env fs0 hp hs (hbefore 0 (by omega)) (hbefore 1 (by omega))
        (hbefore 2 (by omega)) hfail]
    refine ⟨rfl, ?_, ?_, ?_⟩
    · intro i hi
      dsimp only
      interval_cases i
      · refine ⟨(env.tool (convCmd 48)).2, ?_⟩
        rw [findFile_cons_ne (output_file 192) _ _ _ (by decide),
            findFile_cons_ne (output_file 96) _ _ _ (by decide)]
        exact findFile_cons_self _ _ _
      · refine ⟨(env.tool (convCmd 96)).2, ?_⟩
        rw [findFile_cons_ne (output_file 192) _ _ _ (by decide)]
        exact findFile_cons_self _ _ _
      · exact ⟨(env.tool (convCmd 192)).2, findFile_cons_self _ _ _⟩
    · intro i h1 h2
      dsimp only
      interval_cases i
      rw [findFile_cons_ne (output_file 192) _ _ _ (by decide),
          findFile_cons_ne (output_file 96) _ _ _ (by decide),
          findFile_cons_ne (output_file 48) _ _ _ (by decide)]
      exact hfresh 3 (by omega) (by omega)
    · have h : ([probeCmd, convCmd 48, convCmd 96, convCmd 192, convCmd 32] :
          List (List String)) =
          probeCmd :: (List.range (3 + 1)).map (fun i => convCmd (sizes4.getD i 0)) := by
        decide
      exact h

/-- C4 witness: a concrete run failing at the second size (96x96): the 48x48
output exists afterward, the later outputs do not, and the trace stops at
the 96x96 conversion. -/
theorem C4_witness :
    (run envFail96 fsSvg).exitCode = 1 ∧
    (∀ i, i < 1 → ∃ b,
      findFile (run envFail96 fsSvg).fs (output_file (sizes4.getD i 0)) = some b) ∧
    (∀ i, 1 ≤ i → i < 4 →
      findFile (run envFail96 fsSvg).fs (output_file (sizes4.getD i 0)) = none) ∧
    (run envFail96 fsSvg).invoked =
      probeCmd :: (List.range (1 + 1)).map (fun i => convCmd (sizes4.getD i 0)) :=
  C4_fail_at_nth envFail96 fsSvg 1 (by omega) rfl (by decide)
    (fun i hi => by interval_cases i; decide) (by decide)
    (fun i h1 h2 => by interval_cases i <;> decide)

/-- C9: the tool being modelled as a function of its argument list, a second
run of the whole pipeline on the filesystem left by a first run issues
exactly the same command sequence as the first run and leaves every path —
in particular the five outputs, which it unconditionally overwrites with the
same bytes — with contents identical to those after the first run. -/
theorem C9_idempotent (env : Env) (fs0 : FS) :
    (run env (run env fs0).fs).invoked = (run env fs0).invoked ∧
    ∀ p, findFile (run env (run env fs0).fs).fs p =
      findFile (run env fs0).fs p := by
  refine run_shape env fs0
    (fun r => (run env r.fs).invoked = r.invoked ∧
      ∀ p, findFile (run env r.fs).fs p = findFile r.fs p)
    ?_ ?_ ?_ ?_ ?_ ?_ ?_ ?_
  · intro h
    dsimp only
    rw [run_probe_fail env fs0 h]
    exact ⟨rfl, fun p => rfl⟩
  · intro hp hsn
    dsimp only
    rw [run_svg_missing env fs0 hp hsn]
    exact ⟨rfl, fun p => rfl⟩
  · intro hp hs h48
    dsimp only
    rw [run_fail_48 env fs0 hp hs h48]
    exact ⟨rfl, fun p => rfl⟩
  · intro hp hs h48 h96
    dsimp only
    have hs1 : (findFile ((output_file 48, (env.tool (convCmd 48)).2) :: fs0)
        svg_file).isSome = true := by
      rw [findFile_cons_ne _ _ _ _ out48_ne_svg]; exact hs
    rw [run_fail_96 env _ hp hs1 h48 h96]
    exact ⟨rfl, fun p =>
      findFile_overwrite [(output_file 48, (env.tool (convCmd 48)).2)] fs0 p⟩
  · intro hp hs h48 h96 h192
    dsimp only
    have hs1 : (findFile ((output_file 96, (env.tool (convCmd 96)).2) ::
        (output_file 48, (env.tool (convCmd 48)).2) :: fs0)
        svg_file).isSome = true := by
      rw [findFile_cons_ne _ _ _ _ out96_ne_svg,
          findFile_cons_ne _ _ _ _ out48_ne_svg]
      exact hs
    rw [run_fail_192 env _ hp hs1 h48 h96 h192]
    exact ⟨rfl, fun p =>
      findFile_overwrite [(output_file 96, (env.tool (convCmd 96)).2),
        (output_file 48, (env.tool (convCmd 48)).2)] fs0 p⟩
  · intro hp hs h48 h96 h192 h32
    dsimp only
    have hs1 : (findFile ((output_file 192, (env.tool (convCmd 192)).2) ::
        (output_file 96, (env.tool (convCmd 96)).2) ::
        (output_file 48, (env.tool (convCmd 48)).2) :: fs0)
        svg_file).isSome = true := by
      rw [findFile_cons_ne _ _ _ _ out192_ne_svg,
          findFile_cons_ne _ _ _ _ out96_ne_svg,
          findFile_cons_ne _ _ _ _ out48_ne_svg]
      exact hs
    rw [run_fail_32 env _ hp hs1 h48 h96 h192 h32]
    exact ⟨rfl, fun p =>
      findFile_overwrite [(output_file 192, (env.tool (convCmd 192)).2),
        (output_file 96, (env.tool (convCmd 96)).2),
        (output_file 48, (env.tool (convCmd 48)).2)] fs0 p⟩
  · intro hp hs h48 h96 h192 h32 hico
    dsimp only
    have hs1 : (findFile ((output_file 32, (env.tool (convCmd 32)).2) ::
        (output_file 192, (env.tool (convCmd 192)).2) ::
        (output_file 96, (env.tool (convCmd 96)).2) ::
        (output_file 48, (env.tool (convCmd 48)).2) :: fs0)
        svg_file).isSome = true := by
      rw [findFile_cons_ne _ _ _ _ out32_ne_svg,
          findFile_cons_ne _ _ _ _ out192_ne_svg,
          findFile_cons_ne _ _ _ _ out96_ne_svg,
          findFile_cons_ne _ _ _ _ out48_ne_svg]
      exact hs
    rw [run_fail_ico env _ hp hs1 h48 h96 h192 h32 hico]
    exact ⟨rfl, fun p =>
      findFile_overwrite [(output_file 32, (env.tool (convCmd 32)).2),
        (output_file 192, (env.tool (convCmd 192)).2),
        (output_file 96, (env.tool (convCmd 96)).2),
        (output_file 48, (env.tool (convCmd 48)).2)] fs0 p⟩
  · intro hp hs h48 h96 h192 h32 hico
    dsimp only
    have hs1 : (findFile ((icoFile, (env.tool ico_cmd).2) ::
        (output_file 32, (env.tool (convCmd 32)).2) ::
        (output_file 192, (env.tool (convCmd 192)).2) ::
        (output_file 96, (env.tool (convCmd 96)).2) ::
        (output_file 48, (env.tool (convCmd 48)).2) :: fs0)
        svg_file).isSome = true := by
      rw [findFile_cons_ne _ _ _ _ ico_ne_svg,
          findFile_cons_ne _ _ _ _ out32_ne_svg,
          findFile_cons_ne _ _ _ _ out192_ne_svg,
          findFile_cons_ne _ _ _ _ out96_ne_svg,
          findFile_cons_ne _ _ _ _ out48_ne_svg]
      exact hs
    rw [run_success env _ hp hs1 h48 h96 h192 h32 hico]
    exact ⟨rfl, fun p =>
      findFile_overwrite [(icoFile, (env.tool ico_cmd).2),
        (output_file 32, (env.tool (convCmd 32)).2),
        (output_file 192, (env.tool (convCmd 192)).2),
        (output_file 96, (env.tool (convCmd 96)).2),
        (output_file 48, (env.tool (convCmd 48)).2)] fs0 p⟩

end Favicon
